import Mathlib

/-!
Shallow embedding of the EmoLang recursive-descent parser
(src/emolang/parser/parser.py) together with the token-kind
classification model (src/mojilang/lexer/token_type.py).

Python control flow is translated directly: the parser's mutable
cursor becomes an explicitly threaded `PState`, Python exceptions
become an `Except PErr` result, Python list indexing (including
negative-index wrap-around and `IndexError`) becomes `py_get`, and
the mutually recursive parser methods take a fuel argument whose
exhaustion is reported as the distinguished error `PErr.outOfFuel`,
so that "the Python call terminates" is expressible as "some finite
fuel yields a result other than `outOfFuel`".
-/

set_option maxHeartbeats 4000000

namespace EmoLang

/-- Token kinds of the lexer, from token_type.py. -/
inductive TokenType where
  | LEFT_PAREN
  | RIGHT_PAREN
  | LEFT_BRACE
  | RIGHT_BRACE
  | SEMI_COLON
  | PLUS
  | MINUS
  | MULTIPLY
  | DIVIDE
  | MODULUS
  | EXPONENT
  | COMMA
  | PERIOD
  | BANG
  | BANG_EQUAL
  | EQUAL
  | EQUAL_EQUAL
  | GREATER
  | GREATER_EQUAL
  | LESS
  | LESS_EQUAL
  | IDENTIFIER
  | STRING
  | NUMBER
  | AND
  | ELSE
  | ELSEIF
  | FALSE
  | LOOP
  | IF
  | OR
  | PRINT
  | INPUT
  | RETURN
  | TRUE
  | VAR
  | FUNCTION
  | FUNCTION_CALL
  | BREAK
  | CONTINUE
  | EOF
deriving DecidableEq, Repr

/-- TokenType.literal_types() from token_type.py. -/
def literal_types : List TokenType :=
  [.NUMBER, .STRING, .TRUE, .FALSE]

/-- TokenType.valid_print_types() from token_type.py. -/
def valid_print_types : List TokenType :=
  .IDENTIFIER :: literal_types

/-- TokenType.operation_types() from token_type.py. -/
def operation_types : List TokenType :=
  [.MULTIPLY, .DIVIDE, .PLUS, .MINUS, .MODULUS, .EXPONENT, .BANG, .BANG_EQUAL,
   .EQUAL_EQUAL, .LESS, .LESS_EQUAL, .GREATER, .GREATER_EQUAL, .AND, .OR]

/-- TokenType.unary_operations() from token_type.py. -/
def unary_operations : List TokenType :=
  [.BANG]

/-- TokenType.valid_expression_types() from token_type.py. -/
def valid_expression_types : List TokenType :=
  valid_print_types ++ operation_types ++ [.LEFT_PAREN, .RIGHT_PAREN, .COMMA, .FUNCTION_CALL]

/-- TokenType.if_statement_tokens() from token_type.py. -/
def if_statement_tokens : List TokenType :=
  [.IF, .ELSEIF, .ELSE]

/-- Rendering of a token type as Python str() renders the enum member,
used by the f-string in the invalid-token-in-expression message. -/
def token_type_str : TokenType → String
  | .LEFT_PAREN => "TokenType.LEFT_PAREN"
  | .RIGHT_PAREN => "TokenType.RIGHT_PAREN"
  | .LEFT_BRACE => "TokenType.LEFT_BRACE"
  | .RIGHT_BRACE => "TokenType.RIGHT_BRACE"
  | .SEMI_COLON => "TokenType.SEMI_COLON"
  | .PLUS => "TokenType.PLUS"
  | .MINUS => "TokenType.MINUS"
  | .MULTIPLY => "TokenType.MULTIPLY"
  | .DIVIDE => "TokenType.DIVIDE"
  | .MODULUS => "TokenType.MODULUS"
  | .EXPONENT => "TokenType.EXPONENT"
  | .COMMA => "TokenType.COMMA"
  | .PERIOD => "TokenType.PERIOD"
  | .BANG => "TokenType.BANG"
  | .BANG_EQUAL => "TokenType.BANG_EQUAL"
  | .EQUAL => "TokenType.EQUAL"
  | .EQUAL_EQUAL => "TokenType.EQUAL_EQUAL"
  | .GREATER => "TokenType.GREATER"
  | .GREATER_EQUAL => "TokenType.GREATER_EQUAL"
  | .LESS => "TokenType.LESS"
  | .LESS_EQUAL => "TokenType.LESS_EQUAL"
  | .IDENTIFIER => "TokenType.IDENTIFIER"
  | .STRING => "TokenType.STRING"
  | .NUMBER => "TokenType.NUMBER"
  | .AND => "TokenType.AND"
  | .ELSE => "TokenType.ELSE"
  | .ELSEIF => "TokenType.ELSEIF"
  | .FALSE => "TokenType.FALSE"
  | .LOOP => "TokenType.LOOP"
  | .IF => "TokenType.IF"
  | .OR => "TokenType.OR"
  | .PRINT => "TokenType.PRINT"
  | .INPUT => "TokenType.INPUT"
  | .RETURN => "TokenType.RETURN"
  | .TRUE => "TokenType.TRUE"
  | .VAR => "TokenType.VAR"
  | .FUNCTION => "TokenType.FUNCTION"
  | .FUNCTION_CALL => "TokenType.FUNCTION_CALL"
  | .BREAK => "TokenType.BREAK"
  | .CONTINUE => "TokenType.CONTINUE"
  | .EOF => "TokenType.EOF"

/-- Decoded literal payload of a token (a Python number or string). -/
inductive PyLiteral where
  | num (n : Int)
  | str (s : String)
deriving DecidableEq, Repr

/-- A token as consumed by the parser: kind, raw lexeme, optional decoded
literal value, and 1-based source line. -/
structure Token where
  token_type : TokenType
  lexeme : String
  literal : Option PyLiteral
  line : Nat
deriving DecidableEq, Repr

/-- Errors a parser run can surface: a SyntaxException carrying line and
message, a Python AttributeError (operation node built with no context),
a Python IndexError (token list indexed out of range), or exhaustion of
the fuel bound used to interpret Python recursion. -/
inductive PErr where
  | syntaxErr (line : Nat) (msg : String)
  | attrErr
  | indexErr
  | outOfFuel
deriving DecidableEq, Repr

/-- AST nodes produced by the parser. The node classes live in the
emolang.parser.nodes package, which is not under src/; their shapes are
modelled from the spec's data model (Block, Assignment, Print, the
If/ElseIf/Else chain, literals, variable references, unary and binary
operations) and from how parser.py constructs them. Fields that Python
may fill with None are Options. -/
inductive Node where
  | BlockNode (nodes : List (Option Node))
  | AssignmentNode (target : Node) (value : Option Node)
  | PrintNode (value : Option Node)
  | IfNode (condition : Option Node) (block : Node) (next_conditional : Option Node)
  | ElseIfNode (condition : Option Node) (block : Node) (next_conditional : Option Node)
  | ElseNode (block : Option Node)
  | NumberLiteralNode (value : Option PyLiteral)
  | StringLiteralNode (value : Option PyLiteral)
  | BooleanLiteralNode (value : Bool)
  | VariableNode (name : String)
  | NotNode (operand : Node)
  | AndNode (left right : Node)
  | OrNode (left right : Node)
  | EqualsNode (left right : Node)
  | NotEqualsNode (left right : Node)
  | GreaterNode (left right : Node)
  | GreaterEqualsNode (left right : Node)
  | LessNode (left right : Node)
  | LessEqualsNode (left right : Node)
  | AdditionNode (left right : Node)
  | SubtractionNode (left right : Node)
  | MultiplicationNode (left right : Node)
  | DivisionNode (left right : Node)
  | ModulusNode (left right : Node)
  | ExponentNode (left right : Node)

/-- Operation context passed into node construction. Modelled from the
spec: the nodes package (not under src/) defines BinaryOperationContext
holding two operands and UnaryOperationContext holding one; Python's
context argument defaults to None, modelled as noContext. -/
inductive Ctx where
  | noContext
  | unaryContext (operand : Node)
  | binaryContext (left right : Node)

/-- Modelled from the spec: BinaryOperationContext.get_left_operand();
calling it on None or on a unary context is a Python AttributeError. -/
def Ctx.get_left_operand : Ctx → Except PErr Node
  | .binaryContext l _ => .ok l
  | _ => .error .attrErr

/-- Modelled from the spec: BinaryOperationContext.get_right_operand(). -/
def Ctx.get_right_operand : Ctx → Except PErr Node
  | .binaryContext _ r => .ok r
  | _ => .error .attrErr

/-- Modelled from the spec: UnaryOperationContext.get_operand(). -/
def Ctx.get_operand : Ctx → Except PErr Node
  | .unaryContext x => .ok x
  | _ => .error .attrErr

/-- Parser state: the token list and the integer cursor self._current. -/
structure PState where
  tokens : List Token
  current : Nat

/-- Python list indexing tokens[i]: indices in [0, len) read directly,
indices in [-len, 0) wrap around, and anything else raises IndexError.
Parser._retrieve_token is exactly this on self._tokens. -/
def py_get (tokens : List Token) (i : Int) : Except PErr Token :=
  if h : 0 ≤ i ∧ i.toNat < tokens.length then
    .ok (tokens.get ⟨i.toNat, h.2⟩)
  else if h2 : -(tokens.length : Int) ≤ i ∧ i < 0 then
    .ok (tokens.get ⟨(i + tokens.length).toNat, by omega⟩)
  else .error .indexErr

def msg_expected_print : String := "Expected \x27🗣️\x27 for print statement."
def msg_expected_semi : String := "Expected \x27;\x27 to terminate statement."
def msg_expected_var : String := "Expected \x27🥸\x27 to indicate variable."
def msg_expected_identifier : String := "Expected an identifier for assignment."
def msg_expected_equal : String := "Expected \x27✍️\x27 for assignment."
def msg_expected_semi_var : String := "Expected \x27;\x27 to terminate the statement."
def msg_invalid_token_in_expression : String := "Invalid token in expression: "
def msg_unmatched_left : String := "Left parenthesis missing closing right."
def msg_unmatched_right : String := "Right parenthesis missing corresponding left."
def msg_no_valid_operations : String := "Invalid expression: no valid operations found."
def msg_missing_left_operand : String := "Invalid expression: missing left operand."
def msg_missing_right_operand : String := "Invalid expression: missing right operand."
def msg_expected_if : String := "Expected \x27🤔\x27 for if statement."
def msg_expected_lbrace_if : String := "Expected \x27\x7b\x27 to begin if statement block."
def msg_expected_rbrace_if : String := "Expected \x27\x7d\x27 to begin if statement block."
def msg_missing_rbrace : String := "Missing closing right brace."
def msg_expected_elseif : String := "Expected \x27🙈\x27 for elseif statement."
def msg_expected_else : String := "Expected \x27💅\x27 for else."
def msg_expected_lbrace_else : String := "Expected \x27\x7b\x27 to begin else block."
def msg_expected_rbrace_else : String := "Expected \x27\x7d\x27 to begin else block."

/-- Parser._validate_token: check the current token's kind against the
valid set, raising a SyntaxException otherwise, then advance the cursor. -/
def validate_token (s : PState) (valid_token_types : List TokenType)
    (error_message : String) : Except PErr PState :=
  match py_get s.tokens (s.current : Int) with
  | .error e => .error e
  | .ok next_token =>
    if next_token.token_type ∈ valid_token_types then
      .ok { s with current := s.current + 1 }
    else .error (.syntaxErr next_token.line error_message)

/-- Parser._parse_identifier_token: a VariableNode from the lexeme of the
token at the given index; does not move the cursor. -/
def parse_identifier_token (s : PState) (index : Int) : Except PErr Node :=
  match py_get s.tokens index with
  | .error e => .error e
  | .ok identifier_token => .ok (.VariableNode identifier_token.lexeme)

/-- Structural recursion for the while loop of
Parser._find_end_of_expression_index: the second argument counts the
remaining in-bounds positions plus one, so it never reaches zero before
the scan either stops at a non-expression token or runs off the list
(a Python IndexError). -/
def find_end_go (tokens : List Token) : Nat → Nat → Except PErr Nat
  | _, 0 => .error .indexErr
  | index, steps + 1 =>
    match tokens.get? index with
    | none => .error .indexErr
    | some t =>
      if t.token_type ∈ valid_expression_types then
        find_end_go tokens (index + 1) steps
      else .ok index

/-- Parser._find_end_of_expression_index: scan forward from the cursor
while tokens are expression-legal; the first disagreeing index is the
exclusive end of the expression. Running off the token list raises
IndexError, exactly as Python indexing would. -/
def find_end_of_expression_index (tokens : List Token) (index : Nat) :
    Except PErr Nat :=
  find_end_go tokens index (tokens.length - index + 1)

/-- Structural recursion for the while loop of
Parser._find_parenthesis_count: the step count is exactly the number of
positions from the current one up to the right bound, so it reaches zero
precisely when the scan passes the right bound. -/
def paren_go (tokens : List Token) : Nat → Int → Int → Except PErr (Int × Int)
  | 0, counter, current => .ok (counter, current)
  | steps + 1, counter, current =>
    match py_get tokens current with
    | .error e => .error e
    | .ok token =>
      let c1 := if token.token_type = .LEFT_PAREN then counter + 1 else counter
      let c2 := if token.token_type = .RIGHT_PAREN then c1 - 1 else c1
      if c2 = 0 then .ok (c2, current)
      else paren_go tokens steps c2 (current + 1)

/-- The while loop of Parser._find_parenthesis_count: starting from a
counter value at a position, add one per left paren and subtract one per
right paren, stopping when the counter reaches zero after a token or when
the scan passes the right bound. Returns the final counter and position. -/
def paren_scan (tokens : List Token) (right_index : Int) (counter current : Int) :
    Except PErr (Int × Int) :=
  paren_go tokens (right_index + 1 - current).toNat counter current

/-- Parser._find_parenthesis_count: run the balance scan from the left
index, then report an unmatched parenthesis (by the counter's sign) at
the line of the right-bound token, or return (counter, close position). -/
def find_parenthesis_count (tokens : List Token) (left_index right_index : Int) :
    Except PErr (Int × Int) :=
  match paren_scan tokens right_index 0 left_index with
  | .error e => .error e
  | .ok (paren_counter, current_index) =>
    match py_get tokens right_index with
    | .error e => .error e
    | .ok token =>
      if paren_counter > 0 then .error (.syntaxErr token.line msg_unmatched_left)
      else if paren_counter < 0 then .error (.syntaxErr token.line msg_unmatched_right)
      else .ok (paren_counter, current_index)

/-- Parser._within_parens: the two boundary tokens are a left and a right
parenthesis respectively. -/
def within_parens (tokens : List Token) (left_index right_index : Int) :
    Except PErr Bool := do
  let left_token ← py_get tokens left_index
  let right_token ← py_get tokens right_index
  pure (left_token.token_type = TokenType.LEFT_PAREN ∧
        right_token.token_type = TokenType.RIGHT_PAREN : Bool)

/-- Parser._is_nested_parens: boundary tokens are parens and the paren
opened at the left bound closes exactly at the right bound. -/
def is_nested_parens (tokens : List Token) (left_index right_index : Int) :
    Except PErr Bool := do
  let w ← within_parens tokens left_index right_index
  if w then do
    let pc ← find_parenthesis_count tokens left_index right_index
    pure (pc.1 = 0 ∧ pc.2 = right_index : Bool)
  else pure false

/-- Parser._skip_parentheses: the index after the closing parenthesis,
clamped to the right bound. -/
def skip_parentheses (tokens : List Token) (left_index right_index : Int) :
    Except PErr Int := do
  let pc ← find_parenthesis_count tokens left_index right_index
  pure (min (pc.2 + 1) right_index)

/-- Parser._parse_literal: literal tokens to literal nodes; any other
token type falls off the end of the function, yielding None. -/
def parse_literal (token : Token) : Option Node :=
  match token.token_type with
  | .STRING => some (.StringLiteralNode token.literal)
  | .NUMBER => some (.NumberLiteralNode token.literal)
  | .TRUE => some (.BooleanLiteralNode true)
  | .FALSE => some (.BooleanLiteralNode false)
  | _ => none

/-- The binary_operation_map dict of Parser._parse_operation. -/
def binary_operation_map : TokenType → Option (Node → Node → Node)
  | .AND => some .AndNode
  | .BANG_EQUAL => some .NotEqualsNode
  | .DIVIDE => some .DivisionNode
  | .EQUAL_EQUAL => some .EqualsNode
  | .EXPONENT => some .ExponentNode
  | .GREATER => some .GreaterNode
  | .GREATER_EQUAL => some .GreaterEqualsNode
  | .LESS => some .LessNode
  | .LESS_EQUAL => some .LessEqualsNode
  | .MINUS => some .SubtractionNode
  | .MODULUS => some .ModulusNode
  | .MULTIPLY => some .MultiplicationNode
  | .OR => some .OrNode
  | .PLUS => some .AdditionNode
  | _ => none

/-- Parser._parse_operation: binary operators look up the dispatch table
and read both operands from the context (left first, as Python evaluates
the tuple left to right); a bang builds a NotNode from the unary operand;
any other token falls off the end, yielding None. -/
def parse_operation (token : Token) (context : Ctx) : Except PErr (Option Node) :=
  match binary_operation_map token.token_type with
  | some operation_class => do
    let left_operand ← context.get_left_operand
    let right_operand ← context.get_right_operand
    pure (some (operation_class left_operand right_operand))
  | none =>
    if token.token_type = .BANG then do
      let operand ← context.get_operand
      pure (some (.NotNode operand))
    else pure none

/-- The operator_precedence list of Parser._parse_expression_recursive,
lowest precedence tier first. -/
def operator_precedence : List (List TokenType) :=
  [[.OR],
   [.AND],
   [.EQUAL_EQUAL, .GREATER, .GREATER_EQUAL, .LESS_EQUAL, .LESS, .BANG_EQUAL],
   [.BANG],
   [.MINUS, .PLUS],
   [.MULTIPLY, .DIVIDE, .MODULUS],
   [.EXPONENT]]

mutual

/-- The while loop of Parser.parse: while the cursor is in bounds and not
at EOF, handle one token and append the result to the node list; wrap the
collected nodes in a BlockNode. -/
def parse_nodes : Nat → PState → List (Option Node) → Except PErr (Node × PState)
  | 0, _, _ => .error .outOfFuel
  | fuel + 1, s, nodes =>
    if h : s.current < s.tokens.length then
      if (s.tokens.get ⟨s.current, h⟩).token_type = .EOF then
        .ok (.BlockNode nodes, s)
      else do
        let (node, s1) ← handle_token fuel s (s.current : Int) .noContext
        parse_nodes fuel s1 (nodes ++ [node])
    else .ok (.BlockNode nodes, s)
termination_by structural fuel _ _ => fuel

/-- Parser._handle_token: dispatch on the kind of the token at the index.
Kinds with no branch fall off the end of the Python function, yielding
None and leaving the cursor untouched. -/
def handle_token : Nat → PState → Int → Ctx → Except PErr (Option Node × PState)
  | 0, _, _, _ => .error .outOfFuel
  | fuel + 1, s, index, context =>
    match py_get s.tokens index with
    | .error e => .error e
    | .ok token =>
      if token.token_type = .PRINT then do
        let (n, s1) ← parse_print_token fuel s
        pure (some n, s1)
      else if token.token_type = .IDENTIFIER then
        match parse_identifier_token s index with
        | .error e => .error e
        | .ok n => .ok (some n, s)
      else if token.token_type = .VAR then do
        let (n, s1) ← parse_var_token fuel s
        pure (some n, s1)
      else if token.token_type = .IF then do
        let (n, s1) ← parse_if_statement fuel s
        pure (some n, s1)
      else if token.token_type ∈ literal_types then
        .ok (parse_literal token, s)
      else if token.token_type ∈ operation_types then
        match parse_operation token context with
        | .error e => .error e
        | .ok opt_node => .ok (opt_node, s)
      else .ok (none, s)
termination_by structural fuel _ _ _ => fuel

/-- Parser._parse_print_token: print marker, expression, semicolon. -/
def parse_print_token : Nat → PState → Except PErr (Node × PState)
  | 0, _ => .error .outOfFuel
  | fuel + 1, s => do
    let s1 ← validate_token s [.PRINT] msg_expected_print
    let (node_to_print, s2) ← parse_expression fuel s1
    let s3 ← validate_token s2 [.SEMI_COLON] msg_expected_semi
    pure (.PrintNode node_to_print, s3)
termination_by structural fuel _ => fuel

/-- Parser._parse_var_token: var marker, identifier, assignment operator,
expression, semicolon. -/
def parse_var_token : Nat → PState → Except PErr (Node × PState)
  | 0, _ => .error .outOfFuel
  | fuel + 1, s => do
    let s1 ← validate_token s [.VAR] msg_expected_var
    let variable_node ← parse_identifier_token s1 (s1.current : Int)
    let s2 ← validate_token s1 [.IDENTIFIER] msg_expected_identifier
    let s3 ← validate_token s2 [.EQUAL] msg_expected_equal
    let (value_node, s4) ← parse_expression fuel s3
    let s5 ← validate_token s4 [.SEMI_COLON] msg_expected_semi_var
    pure (.AssignmentNode variable_node value_node, s5)
termination_by structural fuel _ => fuel

/-- Parser._parse_expression: find the exclusive end of the maximal run of
expression-legal tokens, parse the closed range [cursor, end - 1]
recursively, then set the cursor to the exclusive end. -/
def parse_expression : Nat → PState → Except PErr (Option Node × PState)
  | 0, _ => .error .outOfFuel
  | fuel + 1, s => do
    let end_of_expression_index ← find_end_of_expression_index s.tokens s.current
    let (node, s1) ←
      parse_expression_recursive fuel s (s.current : Int)
        ((end_of_expression_index : Int) - 1)
    pure (node, { s1 with current := end_of_expression_index })
termination_by structural fuel _ => fuel

/-- Parser._parse_expression_recursive: retrieve both boundary tokens (as
line 204 of the source does), resolve one-token ranges through
handle_token after re-validating expression-legality, strip nested
parentheses, and otherwise run the precedence-tier operator search. -/
def parse_expression_recursive : Nat → PState → Int → Int → Except PErr (Option Node × PState)
  | 0, _, _, _ => .error .outOfFuel
  | fuel + 1, s, left_index, right_index =>
    match py_get s.tokens left_index with
    | .error e => .error e
    | .ok left_token =>
      match py_get s.tokens right_index with
      | .error e => .error e
      | .ok _right_token =>
        if right_index - left_index = 0 then
          if left_token.token_type ∉ valid_expression_types then
            .error (.syntaxErr left_token.line
              (msg_invalid_token_in_expression ++ token_type_str left_token.token_type))
          else handle_token fuel s left_index .noContext
        else
          match is_nested_parens s.tokens left_index right_index with
          | .error e => .error e
          | .ok nested =>
            if nested then
              parse_expression_recursive fuel s (left_index + 1) (right_index - 1)
            else tier_scan fuel s left_index right_index operator_precedence
termination_by structural fuel _ _ _ => fuel

/-- The outer for loop over precedence tiers in
Parser._parse_expression_recursive, including the final
no-valid-operations failure when every tier misses. -/
def tier_scan : Nat → PState → Int → Int → List (List TokenType) → Except PErr (Option Node × PState)
  | 0, _, _, _, _ => .error .outOfFuel
  | fuel + 1, s, left_index, right_index, tiers =>
    match tiers with
    | [] =>
      match py_get s.tokens left_index with
      | .error e => .error e
      | .ok t => .error (.syntaxErr t.line msg_no_valid_operations)
    | operators :: rest => do
      let (node, s1) ← index_scan fuel s left_index right_index operators left_index
      match node with
      | some n => pure (some n, s1)
      | none => tier_scan fuel s1 left_index right_index rest
termination_by structural fuel _ _ _ _ => fuel

/-- The inner while loop over token positions within one precedence tier:
jump past a left parenthesis, try to build an operation at the (possibly
moved) position, return the first hit, otherwise advance by one. -/
def index_scan : Nat → PState → Int → Int → List TokenType → Int → Except PErr (Option Node × PState)
  | 0, _, _, _, _, _ => .error .outOfFuel
  | fuel + 1, s, left_index, right_index, operators, index =>
    if index < right_index then do
      let token ← py_get s.tokens index
      let index2 ←
        if token.token_type = TokenType.LEFT_PAREN then
          skip_parentheses s.tokens index right_index
        else pure index
      let (node, s1) ← handle_by_operations fuel s operators left_index right_index index2
      match node with
      | some n => pure (some n, s1)
      | none => index_scan fuel s1 left_index right_index operators (index2 + 1)
    else pure (none, s)
termination_by structural fuel _ _ _ _ _ => fuel

/-- Parser._handle_by_operations: if the token at the index belongs to the
active tier, dispatch to the unary or binary handler; otherwise fall off
the end, yielding None. -/
def handle_by_operations : Nat → PState → List TokenType → Int → Int → Int → Except PErr (Option Node × PState)
  | 0, _, _, _, _, _ => .error .outOfFuel
  | fuel + 1, s, operations, left_index, right_index, index =>
    match py_get s.tokens index with
    | .error e => .error e
    | .ok token =>
      if token.token_type ∈ operations then
        if token.token_type ∈ unary_operations then
          handle_unary_operation fuel s index right_index
        else handle_binary_operation fuel s left_index index right_index
      else .ok (none, s)
termination_by structural fuel _ _ _ _ _ => fuel

/-- Parser._handle_unary_operation: parse the range right of the operator
as the sole operand, fail on a None operand, then build the node through
handle_token with a unary context. -/
def handle_unary_operation : Nat → PState → Int → Int → Except PErr (Option Node × PState)
  | 0, _, _, _ => .error .outOfFuel
  | fuel + 1, s, index, right_index => do
    let token ← py_get s.tokens index
    let (right_node, s1) ← parse_expression_recursive fuel s (index + 1) right_index
    match right_node with
    | none => .error (.syntaxErr token.line msg_missing_right_operand)
    | some rn => handle_token fuel s1 index (.unaryContext rn)
termination_by structural fuel _ _ _ => fuel

/-- Parser._handle_binary_operation: parse the ranges left and right of
the operator, fail on a None operand, then build the node through
handle_token with a binary context. -/
def handle_binary_operation : Nat → PState → Int → Int → Int → Except PErr (Option Node × PState)
  | 0, _, _, _, _ => .error .outOfFuel
  | fuel + 1, s, left_index, index, right_index => do
    let token ← py_get s.tokens index
    let (left_node, s1) ← parse_expression_recursive fuel s left_index (index - 1)
    match left_node with
    | none => .error (.syntaxErr token.line msg_missing_left_operand)
    | some ln => do
      let (right_node, s2) ← parse_expression_recursive fuel s1 (index + 1) right_index
      match right_node with
      | none => .error (.syntaxErr token.line msg_missing_right_operand)
      | some rn => handle_token fuel s2 index (.binaryContext ln rn)
termination_by structural fuel _ _ _ _ => fuel

/-- Parser._parse_if_statement: if marker, conditional, optional chain. -/
def parse_if_statement : Nat → PState → Except PErr (Node × PState)
  | 0, _ => .error .outOfFuel
  | fuel + 1, s => do
    let s1 ← validate_token s [.IF] msg_expected_if
    let ((condition_node, block_node), s2) ← parse_conditional fuel s1
    let (next_conditional, s3) ← parse_next_if_conditional fuel s2
    pure (.IfNode condition_node block_node next_conditional, s3)
termination_by structural fuel _ => fuel

/-- Parser._parse_conditional: expression, left brace, block, right brace. -/
def parse_conditional : Nat → PState → Except PErr ((Option Node × Node) × PState)
  | 0, _ => .error .outOfFuel
  | fuel + 1, s => do
    let (condition_node, s1) ← parse_expression fuel s
    let s2 ← validate_token s1 [.LEFT_BRACE] msg_expected_lbrace_if
    let (if_block_node, s3) ← parse_block_nodes fuel s2 []
    let s4 ← validate_token s3 [.RIGHT_BRACE] msg_expected_rbrace_if
    pure ((condition_node, if_block_node), s4)
termination_by structural fuel _ => fuel

/-- The while loop of Parser._parse_block: handle tokens until a right
brace, failing on EOF before the brace. -/
def parse_block_nodes : Nat → PState → List (Option Node) → Except PErr (Node × PState)
  | 0, _, _ => .error .outOfFuel
  | fuel + 1, s, nodes =>
    match py_get s.tokens (s.current : Int) with
    | .error e => .error e
    | .ok token =>
      if token.token_type = .RIGHT_BRACE then .ok (.BlockNode nodes, s)
      else if token.token_type = .EOF then
        .error (.syntaxErr token.line msg_missing_rbrace)
      else do
        let (node, s1) ← handle_token fuel s (s.current : Int) .noContext
        parse_block_nodes fuel s1 (nodes ++ [node])
termination_by structural fuel _ _ => fuel

/-- Parser._parse_next_if_conditional: an else clause, or nothing when the
next token is not an if-chain token, or a recursively chained elseif; an
if token in chain position also yields nothing (Python falls through). -/
def parse_next_if_conditional : Nat → PState → Except PErr (Option Node × PState)
  | 0, _ => .error .outOfFuel
  | fuel + 1, s =>
    match py_get s.tokens (s.current : Int) with
    | .error e => .error e
    | .ok token =>
      if token.token_type = .ELSE then do
        let (n, s1) ← parse_else fuel s
        pure (some n, s1)
      else if token.token_type ∉ if_statement_tokens then .ok (none, s)
      else if token.token_type = .ELSEIF then do
        let s1 ← validate_token s [.ELSEIF] msg_expected_elseif
        let ((condition_node, block_node), s2) ← parse_conditional fuel s1
        let (next_conditional, s3) ← parse_next_if_conditional fuel s2
        pure (some (.ElseIfNode condition_node block_node next_conditional), s3)
      else .ok (none, s)
termination_by structural fuel _ => fuel

/-- Parser._parse_else: when the current token is else, require the else
marker, a braced block, and produce ElseNode of that block; otherwise the
initial None body survives into ElseNode. -/
def parse_else : Nat → PState → Except PErr (Node × PState)
  | 0, _ => .error .outOfFuel
  | fuel + 1, s =>
    match py_get s.tokens (s.current : Int) with
    | .error e => .error e
    | .ok token =>
      if token.token_type = .ELSE then do
        let s1 ← validate_token s [.ELSE] msg_expected_else
        let s2 ← validate_token s1 [.LEFT_BRACE] msg_expected_lbrace_else
        let (else_block_node, s3) ← parse_block_nodes fuel s2 []
        let s4 ← validate_token s3 [.RIGHT_BRACE] msg_expected_rbrace_else
        pure (.ElseNode (some else_block_node), s4)
      else .ok (.ElseNode none, s)

termination_by structural fuel _ => fuel
end

/-- Parser.parse: run the statement loop from cursor 0 on the given token
list and return the root BlockNode. -/
def parse (fuel : Nat) (tokens : List Token) : Except PErr Node :=
  match parse_nodes fuel { tokens := tokens, current := 0 } [] with
  | .error e => .error e
  | .ok (block, _) => .ok block

/-- A token with only a kind and a line: lexeme and literal empty. -/
def tk (t : TokenType) (line : Nat) : Token :=
  { token_type := t, lexeme := "", literal := none, line := line }

/-- A number token carrying its decoded numeric literal. -/
def tkNum (n : Int) (line : Nat) : Token :=
  { token_type := .NUMBER, lexeme := "", literal := some (.num n), line := line }

/-- An identifier token carrying its lexeme. -/
def tkId (name : String) (line : Nat) : Token :=
  { token_type := .IDENTIFIER, lexeme := name, literal := none, line := line }

/-- A string token carrying its decoded string literal. -/
def tkStr (s : String) (line : Nat) : Token :=
  { token_type := .STRING, lexeme := s, literal := some (.str s), line := line }

/-- Token stream of the statement `print ( 1 + 2 ;` (left parenthesis
never closed within the expression run). -/
def c2_left_tokens : List Token :=
  [tk .PRINT 1, tk .LEFT_PAREN 1, tkNum 1 1, tk .PLUS 1, tkNum 2 1,
   tk .SEMI_COLON 1, tk .EOF 1]

/-- Token stream of the statement `print 1 + 2 ) ;` (right parenthesis
with no opener). -/
def c2_right_tokens : List Token :=
  [tk .PRINT 1, tkNum 1 1, tk .PLUS 1, tkNum 2 1, tk .RIGHT_PAREN 1,
   tk .SEMI_COLON 1, tk .EOF 1]

/-- Token stream of `if ( c1 ) \x7b print 1 ; \x7d elseif ( c2 )
\x7b print 2 ; \x7d else \x7b print 3 ; \x7d`. -/
def c7_chain_tokens : List Token :=
  [tk .IF 1, tk .LEFT_PAREN 1, tkId ("c1") 1, tk .RIGHT_PAREN 1, tk .LEFT_BRACE 1,
   tk .PRINT 1, tkNum 1 1, tk .SEMI_COLON 1, tk .RIGHT_BRACE 1,
   tk .ELSEIF 2, tk .LEFT_PAREN 2, tkId ("c2") 2, tk .RIGHT_PAREN 2, tk .LEFT_BRACE 2,
   tk .PRINT 2, tkNum 2 2, tk .SEMI_COLON 2, tk .RIGHT_BRACE 2,
   tk .ELSE 3, tk .LEFT_BRACE 3, tk .PRINT 3, tkNum 3 3, tk .SEMI_COLON 3,
   tk .RIGHT_BRACE 3, tk .EOF 3]

/-- Token stream of `if ( c ) \x7b \x7d` with nothing after the block. -/
def c7_plain_tokens : List Token :=
  [tk .IF 1, tk .LEFT_PAREN 1, tkId ("c") 1, tk .RIGHT_PAREN 1,
   tk .LEFT_BRACE 1, tk .RIGHT_BRACE 1, tk .EOF 1]

/-- Token stream of `if ( c ) \x7b \x7d else \x7b \x7d`. -/
def c4_good_tokens : List Token :=
  [tk .IF 1, tk .LEFT_PAREN 1, tkId ("c") 1, tk .RIGHT_PAREN 1,
   tk .LEFT_BRACE 1, tk .RIGHT_BRACE 1, tk .ELSE 1, tk .LEFT_BRACE 1,
   tk .RIGHT_BRACE 1, tk .EOF 1]

/-- Token stream of `if ( c ) \x7b \x7d else ;` where the else clause
carries no braced block. -/
def c4_bad_tokens : List Token :=
  [tk .IF 1, tk .LEFT_PAREN 1, tkId ("c") 1, tk .RIGHT_PAREN 1,
   tk .LEFT_BRACE 1, tk .RIGHT_BRACE 1, tk .ELSE 1, tk .SEMI_COLON 1, tk .EOF 1]

/-- Token stream holding a lone else clause with an empty block. -/
def c4_else_only_tokens : List Token :=
  [tk .ELSE 1, tk .LEFT_BRACE 1, tk .RIGHT_BRACE 1, tk .EOF 1]

/-- C2 counterexample: parsing `1 + 2 )` does not fail with the
unmatched-right-parenthesis error; it fails with the generic
no-valid-operations error, because the operator scan never inspects the
right-bound token and the split at `+` leaves the operator-free range
`2 )` on the right. -/
theorem C2_counterexample :
    parse 100 c2_right_tokens = .error (.syntaxErr 1 msg_no_valid_operations) ∧
    msg_no_valid_operations ≠ msg_unmatched_right := by
  exact ⟨rfl, by decide⟩

/-- C2, amended: `( 1 + 2` fails with the unmatched-left-parenthesis
error at the line of the right-bound token, while `1 + 2 )` fails with
the generic no-valid-operations syntax error rather than an
unmatched-right-parenthesis error. -/
theorem C2_unmatched_paren_reporting :
    parse 100 c2_left_tokens = .error (.syntaxErr 1 msg_unmatched_left) ∧
    parse 100 c2_right_tokens = .error (.syntaxErr 1 msg_no_valid_operations) := by
  exact ⟨rfl, rfl⟩

/-- C3: for every binary operator op, the un-parenthesized chain
`a op b op c` splits at the leftmost occurrence and recurses on both
sides, producing the right-grouped tree op(a, op(b, c)) rather than the
left-grouped op(op(a, b), c). -/
theorem C3_leftmost_split_right_grouping :
    ∀ (a b c : Int) (op : TokenType) (mk : Node → Node → Node),
      binary_operation_map op = some mk →
      parse 100 [tk .PRINT 1, tkNum a 1, tk op 1, tkNum b 1, tk op 1,
          tkNum c 1, tk .SEMI_COLON 1, tk .EOF 1] =
        .ok (.BlockNode [some (.PrintNode (some
          (mk (.NumberLiteralNode (some (.num a)))
            (mk (.NumberLiteralNode (some (.num b)))
              (.NumberLiteralNode (some (.num c)))))))]) := by
  intro a b c op mk h
  cases op <;>
    first
    | (exfalso
       revert h
       simp [binary_operation_map]
       done)
    | (obtain rfl := Option.some.inj h
       rfl)

/-- C3 witness: the right-grouping theorem applied to the subtraction
chain `10 - 4 - 3`, the non-associative case the claim highlights. -/
theorem C3_witness :
    binary_operation_map .MINUS = some Node.SubtractionNode ∧
    parse 100 [tk .PRINT 1, tkNum 10 1, tk .MINUS 1, tkNum 4 1, tk .MINUS 1,
        tkNum 3 1, tk .SEMI_COLON 1, tk .EOF 1] =
      .ok (.BlockNode [some (.PrintNode (some
        (.SubtractionNode (.NumberLiteralNode (some (.num 10)))
          (.SubtractionNode (.NumberLiteralNode (some (.num 4)))
            (.NumberLiteralNode (some (.num 3)))))))]) :=
  ⟨rfl, C3_leftmost_split_right_grouping 10 4 3 .MINUS Node.SubtractionNode rfl⟩

/-- C5: with the precedence tiers tried lowest first, `4 == (8 / 2) * 3`
parses to an Equals node whose left operand is the literal 4 and whose
right operand is Multiplication(Division(8, 2), 3). -/
theorem C5_precedence_tiers :
    parse 100 [tk .PRINT 1, tkNum 4 1, tk .EQUAL_EQUAL 1, tk .LEFT_PAREN 1,
        tkNum 8 1, tk .DIVIDE 1, tkNum 2 1, tk .RIGHT_PAREN 1, tk .MULTIPLY 1,
        tkNum 3 1, tk .SEMI_COLON 1, tk .EOF 1] =
      .ok (.BlockNode [some (.PrintNode (some
        (.EqualsNode (.NumberLiteralNode (some (.num 4)))
          (.MultiplicationNode
            (.DivisionNode (.NumberLiteralNode (some (.num 8)))
              (.NumberLiteralNode (some (.num 2))))
            (.NumberLiteralNode (some (.num 3)))))))]) := rfl

/-- C6: parsing `var x = L ;` for a literal token L yields an Assignment
whose target carries the identifier lexeme and whose value is the
matching literal node built from the token's decoded value. -/
theorem C6_literal_assignment_round_trip :
    ∀ (name : String) (L : Token), L.token_type ∈ literal_types →
      parse 100 [tk .VAR 1, tkId name 1, tk .EQUAL 1, L, tk .SEMI_COLON 1, tk .EOF 1] =
        .ok (.BlockNode [some (.AssignmentNode (.VariableNode name) (parse_literal L))]) ∧
      (L.token_type = .NUMBER → parse_literal L = some (.NumberLiteralNode L.literal)) ∧
      (L.token_type = .STRING → parse_literal L = some (.StringLiteralNode L.literal)) ∧
      (L.token_type = .TRUE → parse_literal L = some (.BooleanLiteralNode true)) ∧
      (L.token_type = .FALSE → parse_literal L = some (.BooleanLiteralNode false)) := by
  intro name L hmem
  obtain ⟨tt, lex, lit, line⟩ := L
  simp only [literal_types, List.mem_cons, List.not_mem_nil, or_false] at hmem
  rcases hmem with h | h | h | h <;> subst h <;>
    refine ⟨rfl, ?_, ?_, ?_, ?_⟩ <;> intro h <;> first | rfl | exact nomatch h

/-- C6 witness: the round-trip theorem applied to `var x = 5 ;`. -/
theorem C6_witness :
    (tkNum 5 1).token_type ∈ literal_types ∧
    parse 100 [tk .VAR 1, tkId ("x") 1, tk .EQUAL 1, tkNum 5 1, tk .SEMI_COLON 1, tk .EOF 1] =
      .ok (.BlockNode [some (.AssignmentNode (.VariableNode ("x"))
        (parse_literal (tkNum 5 1)))]) :=
  ⟨by decide, (C6_literal_assignment_round_trip ("x") (tkNum 5 1) (by decide)).1⟩

/-- C7: the chain `if (c1) \x7bA\x7d elseif (c2) \x7bB\x7d else \x7bC\x7d`
parses to If with next ElseIf with next Else carrying body C, and an if
statement with no trailing clause parses to If with next absent. -/
theorem C7_if_chain_shape :
    parse 200 c7_chain_tokens =
      .ok (.BlockNode [some (.IfNode (some (.VariableNode ("c1")))
        (.BlockNode [some (.PrintNode (some (.NumberLiteralNode (some (.num 1)))))])
        (some (.ElseIfNode (some (.VariableNode ("c2")))
          (.BlockNode [some (.PrintNode (some (.NumberLiteralNode (some (.num 2)))))])
          (some (.ElseNode (some (.BlockNode
            [some (.PrintNode (some (.NumberLiteralNode (some (.num 3)))))])))))))]) ∧
    parse 100 c7_plain_tokens =
      .ok (.BlockNode [some (.IfNode (some (.VariableNode ("c")))
        (.BlockNode []) none)]) := by
  exact ⟨rfl, rfl⟩

/-- Divergence of Parser.parse on a token list: every finite fuel budget
is exhausted, which is the fuel-interpreter reading of the Python call
never returning and never raising. -/
def parse_diverges (tokens : List Token) : Prop :=
  ∀ fuel, parse fuel tokens = .error .outOfFuel

/-- When handle_token always succeeds on the current token without
changing the state, the statement loop of parse() makes no progress and
exhausts every fuel budget. -/
lemma parse_nodes_diverges (s : PState) (hlt : s.current < s.tokens.length)
    (heof : (s.tokens.get ⟨s.current, hlt⟩).token_type ≠ .EOF)
    (hstep : ∀ m ctx, ∃ x, handle_token (m + 1) s (s.current : Int) ctx = .ok (x, s)) :
    ∀ fuel nodes, parse_nodes fuel s nodes = .error .outOfFuel := by
  intro fuel
  induction fuel with
  | zero => intro nodes; rfl
  | succ n ih =>
    intro nodes
    simp only [parse_nodes]
    rw [dif_pos hlt, if_neg heof]
    cases n with
    | zero => rfl
    | succ m =>
      obtain ⟨x, hx⟩ := hstep m .noContext
      rw [hx]
      exact ih (nodes ++ [x])

/-- Divergence of parse() lifted from divergence of its statement loop. -/
lemma parse_diverges_of_nodes (tokens : List Token)
    (h : ∀ fuel nodes, parse_nodes fuel ⟨tokens, 0⟩ nodes = .error .outOfFuel) :
    parse_diverges tokens := by
  intro fuel
  simp [parse, h fuel []]

/-- C1 counterexample: the malformed stream whose first token is a
semicolon does not raise a fatal error; handle_token dispatches on no
branch, returns no node without advancing the cursor, and parse() loops
forever, exhausting every finite fuel budget. -/
theorem C1_counterexample : parse_diverges [tk .SEMI_COLON 1, tk .EOF 1] := by
  refine parse_diverges_of_nodes _ (parse_nodes_diverges _ (by decide) (by decide) ?_)
  intro m ctx
  exact ⟨none, rfl⟩

/-- C1, amended: parse() does not terminate on every finite token stream.
A stream whose first token is a closing brace (undispatched) or a bare
literal statement (dispatched to a node builder that does not advance the
cursor) loops forever instead of raising, while a bare binary-operator
statement raises a non-syntax AttributeError through the null operation
context. -/
theorem C1_parse_hangs_on_malformed :
    parse_diverges [tk .RIGHT_BRACE 1, tk .EOF 1] ∧
    parse_diverges [tkNum 5 1, tk .SEMI_COLON 1, tk .EOF 1] ∧
    parse 1000 [tk .PLUS 1, tk .EOF 1] = .error .attrErr := by
  refine ⟨parse_diverges_of_nodes _ (parse_nodes_diverges _ (by decide) (by decide) ?_),
    parse_diverges_of_nodes _ (parse_nodes_diverges _ (by decide) (by decide) ?_), rfl⟩
  · intro m ctx
    exact ⟨none, rfl⟩
  · intro m ctx
    exact ⟨some (.NumberLiteralNode (some (.num 5))), rfl⟩

/-- C4 counterexample: an else token not followed by a brace is a syntax
error, so the else-clause block is not optional. -/
theorem C4_counterexample :
    parse 100 c4_bad_tokens = .error (.syntaxErr 1 msg_expected_lbrace_else) := rfl

/-- C4, amended: the else clause requires a braced block. Whenever the
current token is else, a successful parse_else returns an Else node whose
body is present (the None-body branch is unreachable from the parser,
which only calls parse_else when the current token is else), and
`if ( c ) \x7b \x7d else \x7b \x7d` parses to a chain ending in an Else
node carrying the empty block. -/
theorem C4_else_block_mandatory :
    (∀ fuel s t n s', py_get s.tokens (s.current : Int) = .ok t →
      t.token_type = .ELSE → parse_else fuel s = .ok (n, s') →
      ∃ blk, n = .ElseNode (some blk)) ∧
    parse 100 c4_good_tokens =
      .ok (.BlockNode [some (.IfNode (some (.VariableNode ("c")))
        (.BlockNode []) (some (.ElseNode (some (.BlockNode [])))))]) := by
  constructor
  · intro fuel s t n s' hget ht hrun
    cases fuel with
    | zero => exact nomatch hrun
    | succ m =>
      simp only [parse_else, hget, if_pos ht, Bind.bind, Except.bind] at hrun
      repeat' split at hrun
      all_goals try exact Except.noConfusion hrun
      injection hrun with h
      injection h with h1 h2
      exact ⟨_, h1.symm⟩
  · rfl

/-- C4 witness: the else-clause theorem applied to a lone else block. -/
theorem C4_witness :
    py_get c4_else_only_tokens 0 = .ok (tk .ELSE 1) ∧
    (tk .ELSE 1).token_type = .ELSE ∧
    parse_else 50 ⟨c4_else_only_tokens, 0⟩ =
      .ok (.ElseNode (some (.BlockNode [])), ⟨c4_else_only_tokens, 3⟩) ∧
    ∃ blk, (Node.ElseNode (some (.BlockNode [])) : Node) = .ElseNode (some blk) :=
  ⟨rfl, rfl, rfl,
    C4_else_block_mandatory.1 50 ⟨c4_else_only_tokens, 0⟩ (tk .ELSE 1) _ _ rfl rfl rfl⟩

/-- Reading a Nat index below the length succeeds and returns that
element, as Python indexing does. -/
lemma py_get_nat (tokens : List Token) (i : Nat) (h : i < tokens.length) :
    py_get tokens (i : Int) = .ok (tokens.get ⟨i, h⟩) := by
  unfold py_get
  rw [dif_pos ⟨Int.natCast_nonneg i, by simpa using h⟩]
  simp

/-- Reading one position left of an in-bounds cursor always succeeds: for
a positive cursor it is an in-range read, and for cursor zero it is the
Python negative index -1, which wraps to the last element. -/
lemma py_get_pred (tokens : List Token) (cur : Nat) (h : cur < tokens.length) :
    ∃ t, py_get tokens ((cur : Int) - 1) = .ok t := by
  rcases Nat.eq_zero_or_pos cur with rfl | hpos
  · unfold py_get
    rw [dif_neg (by omega), dif_pos (by constructor <;> omega)]
    exact ⟨_, rfl⟩
  · rw [show (cur : Int) - 1 = ((cur - 1 : Nat) : Int) by omega]
    exact ⟨_, py_get_nat tokens (cur - 1) (by omega)⟩

/-- The end-of-expression scan stops immediately at a token that is not
expression-legal. -/
lemma find_end_stop (tokens : List Token) (i : Nat) (h : i < tokens.length)
    (hv : (tokens.get ⟨i, h⟩).token_type ∉ valid_expression_types) :
    find_end_of_expression_index tokens i = .ok i := by
  have hv2 : tokens[i].token_type ∉ valid_expression_types := hv
  unfold find_end_of_expression_index
  simp only [find_end_go]
  rw [List.get?_eq_get h]
  simp [hv2]

/-- The inner operator scan yields nothing on an empty index range. -/
lemma index_scan_stop (u : Nat) (s : PState) (l r : Int) (ops : List TokenType)
    (i : Int) (h : ¬ i < r) :
    index_scan (u + 1) s l r ops i = .ok (none, s) := by
  simp only [index_scan, if_neg h]
  rfl

/-- On an empty index range every precedence tier misses, so the tier
loop falls through to the no-valid-operations failure at the line of the
left-bound token. -/
lemma tier_scan_all_miss : ∀ (tiers : List (List TokenType)) (fuel : Nat) (s : PState)
    (l r : Int) (t : Token), tiers.length + 1 ≤ fuel → ¬ l < r →
    py_get s.tokens l = .ok t →
    tier_scan fuel s l r tiers = .error (.syntaxErr t.line msg_no_valid_operations) := by
  intro tiers
  induction tiers with
  | nil =>
    intro fuel s l r t hf hlr hget
    obtain ⟨f, rfl⟩ : ∃ f, fuel = f + 1 := ⟨fuel - 1, by omega⟩
    simp [tier_scan, hget]
  | cons ops rest ih =>
    intro fuel s l r t hf hlr hget
    simp only [List.length_cons] at hf
    obtain ⟨u, rfl⟩ : ∃ u, fuel = u + 1 + 1 := ⟨fuel - 2, by omega⟩
    simp only [tier_scan]
    rw [index_scan_stop u s l r ops l hlr]
    show tier_scan (u + 1) s l r rest = _
    exact ih (u + 1) s l r t (by omega) hlr hget

/-- A one-short range (right bound one left of the cursor) makes
parse_expression_recursive fall through every tier and fail with the
no-valid-operations error, provided the cursor token is in bounds and not
a left parenthesis. -/
lemma expr_rec_empty (fuel : Nat) (s : PState) (t : Token) (hf : 9 ≤ fuel)
    (h : s.current < s.tokens.length)
    (hget : py_get s.tokens (s.current : Int) = .ok t)
    (hv : t.token_type ∉ valid_expression_types) :
    parse_expression_recursive fuel s (s.current : Int) ((s.current : Int) - 1) =
      .error (.syntaxErr t.line msg_no_valid_operations) := by
  obtain ⟨f, rfl, hf9⟩ : ∃ f, fuel = f + 1 ∧ 8 ≤ f := ⟨fuel - 1, by omega, by omega⟩
  obtain ⟨t', hget'⟩ := py_get_pred s.tokens s.current h
  have hlp : t.token_type ≠ .LEFT_PAREN := by
    intro He
    exact hv (by rw [He]; decide)
  have hnest : is_nested_parens s.tokens (s.current : Int) ((s.current : Int) - 1) =
      .ok false := by
    unfold is_nested_parens within_parens
    simp [hget, hget', hlp, Bind.bind, Except.bind, Pure.pure, Except.pure]
  simp only [parse_expression_recursive, hget, hget']
  rw [if_neg (by omega : ¬((s.current : Int) - 1 - (s.current : Int) = 0))]
  simp only [hnest]
  show tier_scan f s _ _ operator_precedence = _
  exact tier_scan_all_miss operator_precedence f s _ _ t (by simp [operator_precedence]; omega)
    (by omega) hget

/-- C10: whenever the token at the cursor is not expression-legal,
parse_expression (given enough fuel for the seven-tier fall-through)
raises the no-valid-operations syntax error at that token's line instead
of returning an absent node. -/
theorem C10_empty_expression_error :
    ∀ (fuel : Nat) (s : PState) (h : s.current < s.tokens.length), 10 ≤ fuel →
      (s.tokens.get ⟨s.current, h⟩).token_type ∉ valid_expression_types →
      parse_expression fuel s =
        .error (.syntaxErr (s.tokens.get ⟨s.current, h⟩).line msg_no_valid_operations) := by
  intro fuel s h hf hv
  obtain ⟨f, rfl, hf9⟩ : ∃ f, fuel = f + 1 ∧ 9 ≤ f := ⟨fuel - 1, by omega, by omega⟩
  have hrec := expr_rec_empty f s _ hf9 h (py_get_nat s.tokens s.current h) hv
  simp only [parse_expression, Bind.bind, Except.bind,
    find_end_stop s.tokens s.current h hv, hrec]

/-- Token stream of `print ;` with the cursor placed after the print
token, where an expression is required but a semicolon stands. -/
def c10_tokens : List Token :=
  [tk .PRINT 1, tk .SEMI_COLON 1, tk .EOF 1]

/-- C10 witness: the empty-expression theorem applied to `print ;`. -/
theorem C10_witness :
    (10 : Nat) ≤ 10 ∧
    (tk .SEMI_COLON 1).token_type ∉ valid_expression_types ∧
    parse_expression 10 ⟨c10_tokens, 1⟩ =
      .error (.syntaxErr 1 msg_no_valid_operations) := by
  refine ⟨le_refl 10, by decide, ?_⟩
  have h : (1 : Nat) < c10_tokens.length := by decide
  exact C10_empty_expression_error 10 ⟨c10_tokens, 1⟩ h (le_refl 10)
    (by decide : (tk .SEMI_COLON 1).token_type ∉ valid_expression_types)

/-- Expression-legal token kinds are never statement-dispatch kinds. -/
lemma valid_not_stmt :
    ∀ ty ∈ valid_expression_types, ty ∉ ([.PRINT, .VAR, .IF] : List TokenType) := by
  decide

/-- Operation token kinds are never statement-dispatch kinds. -/
lemma op_not_stmt :
    ∀ ty ∈ operation_types, ty ∉ ([.PRINT, .VAR, .IF] : List TokenType) := by
  decide

/-- Every tier of the precedence table consists of operation kinds. -/
lemma prec_tiers_ops :
    ∀ ops ∈ operator_precedence, ∀ ty ∈ ops, ty ∈ operation_types := by
  decide

/-- When the token at the index is not a statement-dispatch kind (print,
var, if), handle_token leaves the state untouched: every other branch
builds its node without advancing the cursor. -/
lemma handle_token_state (fuel : Nat) (s : PState) (i : Int) (ctx : Ctx) (t : Token)
    (out : Option Node × PState) (hget : py_get s.tokens i = .ok t)
    (hmem : t.token_type ∉ ([.PRINT, .VAR, .IF] : List TokenType))
    (hrun : handle_token fuel s i ctx = .ok out) : out.2 = s := by
  cases fuel with
  | zero => exact Except.noConfusion hrun
  | succ m =>
    simp only [handle_token, hget] at hrun
    simp only [List.mem_cons, List.not_mem_nil, or_false, not_or] at hmem
    obtain ⟨hP, hV, hI⟩ := hmem
    rw [if_neg hP] at hrun
    by_cases hid : t.token_type = .IDENTIFIER
    · rw [if_pos hid] at hrun
      cases hpi : parse_identifier_token s i with
      | error e => rw [hpi] at hrun; exact Except.noConfusion hrun
      | ok nnode =>
        rw [hpi] at hrun
        obtain h2 := Except.ok.inj hrun
        rw [← h2]
    · rw [if_neg hid, if_neg hV, if_neg hI] at hrun
      by_cases hlit : t.token_type ∈ literal_types
      · rw [if_pos hlit] at hrun
        obtain h2 := Except.ok.inj hrun
        rw [← h2]
      · rw [if_neg hlit] at hrun
        by_cases hop : t.token_type ∈ operation_types
        · rw [if_pos hop] at hrun
          cases hpo : parse_operation t ctx with
          | error e => rw [hpo] at hrun; exact Except.noConfusion hrun
          | ok onode =>
            rw [hpo] at hrun
            obtain h2 := Except.ok.inj hrun
            rw [← h2]
        · rw [if_neg hop] at hrun
          obtain h2 := Except.ok.inj hrun
          rw [← h2]

/-- The entire expression engine below parse_expression is state-pure:
whenever the range parser, the tier loop, the index loop, or an
operation handler succeeds, the returned state is the input state. The
tier and index hypotheses record that operator sets always come from the
precedence table, so handle_token is only reached at non-statement
tokens. -/
lemma expr_state : ∀ fuel : Nat,
    (∀ s (l r : Int) out,
      parse_expression_recursive fuel s l r = .ok out → out.2 = s) ∧
    (∀ s (l r : Int) tiers out,
      (∀ ops ∈ tiers, ∀ ty ∈ ops, ty ∈ operation_types) →
      tier_scan fuel s l r tiers = .ok out → out.2 = s) ∧
    (∀ s (l r : Int) ops (i : Int) out,
      (∀ ty ∈ ops, ty ∈ operation_types) →
      index_scan fuel s l r ops i = .ok out → out.2 = s) ∧
    (∀ s ops (l r i : Int) out,
      (∀ ty ∈ ops, ty ∈ operation_types) →
      handle_by_operations fuel s ops l r i = .ok out → out.2 = s) ∧
    (∀ s (i r : Int) t out, py_get s.tokens i = .ok t →
      t.token_type ∈ operation_types →
      handle_unary_operation fuel s i r = .ok out → out.2 = s) ∧
    (∀ s (l i r : Int) t out, py_get s.tokens i = .ok t →
      t.token_type ∈ operation_types →
      handle_binary_operation fuel s l i r = .ok out → out.2 = s) := by
  intro fuel
  induction fuel with
  | zero =>
    exact ⟨fun s l r out h => Except.noConfusion h,
      fun s l r tiers out _ h => Except.noConfusion h,
      fun s l r ops i out _ h => Except.noConfusion h,
      fun s ops l r i out _ h => Except.noConfusion h,
      fun s i r t out _ _ h => Except.noConfusion h,
      fun s l i r t out _ _ h => Except.noConfusion h⟩
  | succ n ih =>
    obtain ⟨ihRec, ihTier, ihIdx, ihOps, ihU, ihB⟩ := ih
    refine ⟨?_, ?_, ?_, ?_, ?_, ?_⟩
    · intro s l r out hrun
      simp only [parse_expression_recursive] at hrun
      cases hgl : py_get s.tokens l with
      | error e => simp only [hgl] at hrun; exact Except.noConfusion hrun
      | ok lt =>
        simp only [hgl] at hrun
        cases hgr : py_get s.tokens r with
        | error e => simp only [hgr] at hrun; exact Except.noConfusion hrun
        | ok rt =>
          simp only [hgr] at hrun
          by_cases hd : r - l = 0
          · rw [if_pos hd] at hrun
            by_cases hval : lt.token_type ∉ valid_expression_types
            · rw [if_pos hval] at hrun; exact Except.noConfusion hrun
            · rw [if_neg hval] at hrun
              push_neg at hval
              exact handle_token_state n s l .noContext lt out hgl
                (valid_not_stmt _ hval) hrun
          · rw [if_neg hd] at hrun
            cases hne : is_nested_parens s.tokens l r with
            | error e => simp only [hne] at hrun; exact Except.noConfusion hrun
            | ok nested =>
              simp only [hne] at hrun
              cases nested with
              | true =>
                rw [if_pos rfl] at hrun
                exact ihRec s (l + 1) (r - 1) out hrun
              | false =>
                rw [if_neg (by simp)] at hrun
                exact ihTier s l r operator_precedence out prec_tiers_ops hrun
    · intro s l r tiers out htiers hrun
      cases tiers with
      | nil =>
        simp only [tier_scan] at hrun
        cases hg : py_get s.tokens l with
        | error e => simp only [hg] at hrun; exact Except.noConfusion hrun
        | ok t => simp only [hg] at hrun; exact Except.noConfusion hrun
      | cons ops rest =>
        simp only [tier_scan, Bind.bind, Except.bind] at hrun
        cases hidx : index_scan n s l r ops l with
        | error e => simp only [hidx] at hrun; exact Except.noConfusion hrun
        | ok p =>
          obtain ⟨node, s1⟩ := p
          have hs1 : s1 = s :=
            ihIdx s l r ops l (node, s1) (htiers ops (List.mem_cons_self _ _)) hidx
          simp only [hidx] at hrun
          cases node with
          | some nnn =>
            obtain h2 := Except.ok.inj hrun
            rw [← h2]
            exact hs1
          | none =>
            exact (ihTier s1 l r rest out
              (fun ops2 h2 => htiers ops2 (List.mem_cons_of_mem _ h2)) hrun).trans hs1
    · intro s l r ops i out hops hrun
      simp only [index_scan] at hrun
      by_cases hir : i < r
      · rw [if_pos hir] at hrun
        simp only [Bind.bind, Except.bind] at hrun
        cases hg : py_get s.tokens i with
        | error e => simp only [hg] at hrun; exact Except.noConfusion hrun
        | ok token =>
          simp only [hg] at hrun
          by_cases hlp : token.token_type = TokenType.LEFT_PAREN
          · rw [if_pos hlp] at hrun
            cases hsk : skip_parentheses s.tokens i r with
            | error e => simp only [hsk] at hrun; exact Except.noConfusion hrun
            | ok i2 =>
              simp only [hsk] at hrun
              cases hop : handle_by_operations n s ops l r i2 with
              | error e => simp only [hop] at hrun; exact Except.noConfusion hrun
              | ok p =>
                obtain ⟨node, s1⟩ := p
                have hs1 : s1 = s := ihOps s ops l r i2 (node, s1) hops hop
                simp only [hop] at hrun
                cases node with
                | some nnn =>
                  obtain h2 := Except.ok.inj hrun
                  rw [← h2]
                  exact hs1
                | none =>
                  exact (ihIdx s1 l r ops (i2 + 1) out hops hrun).trans hs1
          · rw [if_neg hlp] at hrun
            simp only [Pure.pure, Except.pure] at hrun
            cases hop : handle_by_operations n s ops l r i with
            | error e => simp only [hop] at hrun; exact Except.noConfusion hrun
            | ok p =>
              obtain ⟨node, s1⟩ := p
              have hs1 : s1 = s := ihOps s ops l r i (node, s1) hops hop
              simp only [hop] at hrun
              cases node with
              | some nnn =>
                obtain h2 := Except.ok.inj hrun
                rw [← h2]
                exact hs1
              | none =>
                exact (ihIdx s1 l r ops (i + 1) out hops hrun).trans hs1
      · rw [if_neg hir] at hrun
        obtain h2 := Except.ok.inj hrun
        rw [← h2]
    · intro s ops l r i out hops hrun
      simp only [handle_by_operations] at hrun
      cases hg : py_get s.tokens i with
      | error e => simp only [hg] at hrun; exact Except.noConfusion hrun
      | ok token =>
        simp only [hg] at hrun
        by_cases hin : token.token_type ∈ ops
        · rw [if_pos hin] at hrun
          by_cases hun : token.token_type ∈ unary_operations
          · rw [if_pos hun] at hrun
            exact ihU s i r token out hg (hops _ hin) hrun
          · rw [if_neg hun] at hrun
            exact ihB s l i r token out hg (hops _ hin) hrun
        · rw [if_neg hin] at hrun
          obtain h2 := Except.ok.inj hrun
          rw [← h2]
    · intro s i r t out hget hopty hrun
      simp only [handle_unary_operation, Bind.bind, Except.bind, hget] at hrun
      cases hrec : parse_expression_recursive n s (i + 1) r with
      | error e => simp only [hrec] at hrun; exact Except.noConfusion hrun
      | ok p =>
        obtain ⟨rn, s1⟩ := p
        have hs1 : s1 = s := ihRec s (i + 1) r (rn, s1) hrec
        simp only [hrec] at hrun
        cases rn with
        | none => exact Except.noConfusion hrun
        | some rnode =>
          rw [hs1] at hrun
          exact handle_token_state n s i (.unaryContext rnode) t out hget
            (op_not_stmt _ hopty) hrun
    · intro s l i r t out hget hopty hrun
      simp only [handle_binary_operation, Bind.bind, Except.bind, hget] at hrun
      cases hrec1 : parse_expression_recursive n s l (i - 1) with
      | error e => simp only [hrec1] at hrun; exact Except.noConfusion hrun
      | ok p =>
        obtain ⟨ln, s1⟩ := p
        have hs1 : s1 = s := ihRec s l (i - 1) (ln, s1) hrec1
        simp only [hrec1] at hrun
        cases ln with
        | none => exact Except.noConfusion hrun
        | some lnode =>
          cases hrec2 : parse_expression_recursive n s1 (i + 1) r with
          | error e => simp only [hrec2] at hrun; exact Except.noConfusion hrun
          | ok q =>
            obtain ⟨rn, s2⟩ := q
            have hs2 : s2 = s1 := ihRec s1 (i + 1) r (rn, s2) hrec2
            simp only [hrec2] at hrun
            cases rn with
            | none => exact Except.noConfusion hrun
            | some rnode =>
              rw [hs2, hs1] at hrun
              exact handle_token_state n s i (.binaryContext lnode rnode) t out hget
                (op_not_stmt _ hopty) hrun

/-- A successful end-of-expression scan stops at the first index at or
after the start whose token is not expression-legal: everything strictly
before it (from the start) is expression-legal, and the stop token
itself, which exists, is not. -/
lemma find_end_go_spec : ∀ (steps : Nat) (tokens : List Token) (index e : Nat),
    find_end_go tokens index steps = .ok e →
    index ≤ e ∧
    (∀ j, index ≤ j → j < e →
      ∃ tj, tokens.get? j = some tj ∧ tj.token_type ∈ valid_expression_types) ∧
    (∃ te, tokens.get? e = some te ∧ te.token_type ∉ valid_expression_types) := by
  intro steps
  induction steps with
  | zero => intro tokens index e h; exact Except.noConfusion h
  | succ st ih =>
    intro tokens index e h
    simp only [find_end_go] at h
    cases hg : tokens.get? index with
    | none => simp only [hg] at h; exact Except.noConfusion h
    | some t =>
      simp only [hg] at h
      by_cases hv : t.token_type ∈ valid_expression_types
      · rw [if_pos hv] at h
        obtain ⟨h1, h2, h3⟩ := ih tokens (index + 1) e h
        refine ⟨by omega, ?_, h3⟩
        intro j hj1 hj2
        rcases Nat.eq_or_lt_of_le hj1 with heq | hlt
        · exact heq ▸ ⟨t, hg, hv⟩
        · exact h2 j (by omega) hj2
      · rw [if_neg hv] at h
        obtain rfl := Except.ok.inj h
        exact ⟨le_refl _, fun j hj1 hj2 => absurd hj2 (by omega), ⟨t, hg, hv⟩⟩

/-- C8: when parse_expression succeeds, the cursor of the resulting state
is exactly the exclusive end of the maximal run of expression-legal
tokens from the starting cursor (every token of the run is
expression-legal and the stop token is not), the token list is unchanged,
and the recursive range parser itself never modifies the state: only the
top-level parse_expression assigns the cursor. -/
theorem C8_expression_cursor_contract :
    (∀ fuel s node s', parse_expression fuel s = .ok (node, s') →
      s'.tokens = s.tokens ∧
      find_end_of_expression_index s.tokens s.current = .ok s'.current ∧
      s.current ≤ s'.current ∧
      (∀ j, s.current ≤ j → j < s'.current →
        ∃ tj, s.tokens.get? j = some tj ∧ tj.token_type ∈ valid_expression_types) ∧
      (∃ te, s.tokens.get? s'.current = some te ∧
        te.token_type ∉ valid_expression_types)) ∧
    (∀ fuel s (l r : Int) out,
      parse_expression_recursive fuel s l r = .ok out → out.2 = s) := by
  constructor
  · intro fuel s node s' hrun
    cases fuel with
    | zero => exact Except.noConfusion hrun
    | succ n =>
      simp only [parse_expression, Bind.bind, Except.bind] at hrun
      cases he : find_end_of_expression_index s.tokens s.current with
      | error e => simp only [he] at hrun; exact Except.noConfusion hrun
      | ok eidx =>
        simp only [he] at hrun
        cases hr : parse_expression_recursive n s (s.current : Int) ((eidx : Int) - 1) with
        | error e => simp only [hr] at hrun; exact Except.noConfusion hrun
        | ok p =>
          obtain ⟨nd, s1⟩ := p
          have hs1 : s1 = s := (expr_state n).1 s _ _ (nd, s1) hr
          simp only [hr] at hrun
          obtain h2 := Except.ok.inj hrun
          have hs' : s' = { s1 with current := eidx } := (congrArg Prod.snd h2).symm
          rw [hs1] at hs'
          subst hs'
          obtain ⟨g1, g2, g3⟩ :=
            find_end_go_spec (s.tokens.length - s.current + 1) s.tokens s.current eidx he
          exact ⟨rfl, rfl, g1, g2, g3⟩
  · intro fuel s l r out
    exact (expr_state fuel).1 s l r out

/-- Token stream of the expression statement fragment `5 ;` used to
instantiate the cursor contract. -/
def c8_demo_tokens : List Token :=
  [tkNum 5 1, tk .SEMI_COLON 1, tk .EOF 1]

/-- C8 witness: the cursor contract applied to the expression `5` before
a semicolon, and the range-parser purity applied to the range [0, 0]. -/
theorem C8_witness :
    parse_expression 50 ⟨c8_demo_tokens, 0⟩ =
      .ok (some (.NumberLiteralNode (some (.num 5))), ⟨c8_demo_tokens, 1⟩) ∧
    find_end_of_expression_index c8_demo_tokens 0 = .ok 1 ∧
    parse_expression_recursive 40 ⟨c8_demo_tokens, 0⟩ 0 0 =
      .ok (some (.NumberLiteralNode (some (.num 5))), ⟨c8_demo_tokens, 0⟩) ∧
    (some (Node.NumberLiteralNode (some (.num 5))),
      (⟨c8_demo_tokens, 0⟩ : PState)).2 = ⟨c8_demo_tokens, 0⟩ :=
  ⟨rfl,
    (C8_expression_cursor_contract.1 50 ⟨c8_demo_tokens, 0⟩
      (some (.NumberLiteralNode (some (.num 5)))) ⟨c8_demo_tokens, 1⟩ rfl).2.1,
    rfl,
    C8_expression_cursor_contract.2 40 ⟨c8_demo_tokens, 0⟩ 0 0
      (some (.NumberLiteralNode (some (.num 5))), ⟨c8_demo_tokens, 0⟩) rfl⟩

/-- C9: for every arithmetic operator op (any operator below the not tier
in the precedence order), the range `n op not b` contains no or/and/
comparison operator, so the unary-not tier hits first and the range
parses to a bare Not node built only from the tokens right of the not
token; the tokens `n op` left of it are silently dropped from the tree. -/
theorem C9_unary_not_drops_left_tokens :
    ∀ (n : Int) (name : String) (op : TokenType),
      op ∈ ([.PLUS, .MINUS, .MULTIPLY, .DIVIDE, .MODULUS, .EXPONENT] : List TokenType) →
      parse 100 [tk .PRINT 1, tkNum n 1, tk op 1, tk .BANG 1, tkId name 1,
          tk .SEMI_COLON 1, tk .EOF 1] =
        .ok (.BlockNode [some (.PrintNode (some (.NotNode (.VariableNode name))))]) := by
  intro n name op hop
  simp only [List.mem_cons, List.not_mem_nil, or_false] at hop
  rcases hop with rfl | rfl | rfl | rfl | rfl | rfl <;> rfl

/-- C9 witness: the drop theorem applied to `print 5 + not b ;`. -/
theorem C9_witness :
    TokenType.PLUS ∈ ([.PLUS, .MINUS, .MULTIPLY, .DIVIDE, .MODULUS, .EXPONENT] :
      List TokenType) ∧
    parse 100 [tk .PRINT 1, tkNum 5 1, tk .PLUS 1, tk .BANG 1, tkId ("b") 1,
        tk .SEMI_COLON 1, tk .EOF 1] =
      .ok (.BlockNode [some (.PrintNode (some (.NotNode (.VariableNode ("b")))))]) :=
  ⟨by decide, C9_unary_not_drops_left_tokens 5 ("b") .PLUS (by decide)⟩

end EmoLang
